import Mathlib

/-!
Verification of the gunny26/docker-mqtt-exporter repository against its
natural-language specification.

The repository holds two Python programs:
  * `build/main.py`  — MQTT → Prometheus exporter (namespace `BuildMain` below);
  * `mqtt_reader.py` — MQTT → CSV datalogger (namespace `MqttReader` below).

The embedding is shallow: every Python function touched by a claim is
translated to an executable Lean function over explicit state.  Python
strings are Lean `String`s (payloads are assumed valid UTF-8; a non-UTF-8
payload only changes which exception fires inside an enclosing handler,
never the resulting counters).  Python floats are modelled as exact
rationals `ℚ`: the code performs no arithmetic on values other than
parse/store/format, so binary rounding is irrelevant to every claim.
-/

/-! ## Python string primitives (structural, kernel-computable) -/

/-- Core of Python `str.split` with a one-character separator, over char lists.
`splitChAux sep []` is `[[]]` because Python `"".split(sep) == [""]`. -/
def splitChAux (sep : Char) : List Char → List (List Char)
  | [] => [[]]
  | c :: rest =>
    match splitChAux sep rest with
    | s :: tail => if c = sep then [] :: s :: tail else (c :: s) :: tail
    | [] => [[]]

/-- Python `s.split(sep)` for a one-character separator `sep`. -/
def pySplit (sep : Char) (s : String) : List String :=
  (splitChAux sep s.data).map fun l => ⟨l⟩

/-- Python `s.startswith("$")`: true iff the first character is `$`. -/
def startsDollar (s : String) : Bool :=
  match s.data with
  | c :: _ => c = '$'
  | [] => false

/-- Inverse of `splitChAux`: interleave the separator back. -/
def joinCh (sep : Char) : List (List Char) → List Char
  | [] => []
  | [s] => s
  | s :: rest => s ++ sep :: joinCh sep rest

/-- Join strings with a one-character separator (used to state topic
reconstruction). -/
def pyJoin (sep : Char) (ss : List String) : String :=
  ⟨joinCh sep (ss.map String.data)⟩

/-- Python `sep.join(ss)` for a string separator. -/
def strJoin (sep : String) : List String → String
  | [] => ""
  | [s] => s
  | s :: rest => s ++ sep ++ strJoin sep rest

/-- Stable insertion into a list sorted by a `Nat` key. -/
def insertBy {α : Type} (key : α → Nat) (x : α) : List α → List α
  | [] => [x]
  | y :: ys => if key y ≤ key x then y :: insertBy key x ys else x :: y :: ys

/-- Stable sort by a `Nat` key; models Python `sorted(xs, key=...)`
(stability matters only for equal keys, which the schema invariant rules
out anyway). -/
def sortBy {α : Type} (key : α → Nat) : List α → List α
  | [] => []
  | x :: xs => insertBy key x (sortBy key xs)

/-! ## Python `float(str)` parsing and `str(float)` formatting -/

/-- Value of a decimal digit character, `none` for a non-digit. -/
def digitVal (c : Char) : Option Nat :=
  if '0' ≤ c ∧ c ≤ '9' then some (c.toNat - '0'.toNat) else none

/-- Consume a maximal run of decimal digits: returns the accumulated value,
the number of digits consumed, and the rest of the input. -/
def parseDigitsAux : List Char → Nat → Nat → Nat × Nat × List Char
  | [], acc, cnt => (acc, cnt, [])
  | c :: rest, acc, cnt =>
    match digitVal c with
    | some d => parseDigitsAux rest (acc * 10 + d) (cnt + 1)
    | none => (acc, cnt, c :: rest)

/-- Optional leading `+`/`-` sign. -/
def parseSignChars : List Char → Int × List Char
  | '+' :: rest => (1, rest)
  | '-' :: rest => (-1, rest)
  | l => (1, l)

/-- ASCII whitespace accepted (and stripped) by Python `float()`. -/
def isPySpace (c : Char) : Bool :=
  c = ' ' || c = '\t' || c = '\n' || c = '\r' || c = '\x0b' || c = '\x0c'

/-- Strip leading and trailing whitespace. -/
def stripSpaces (l : List Char) : List Char :=
  ((l.dropWhile isPySpace).reverse.dropWhile isPySpace).reverse

/-- Python `float(s)` on finite decimal input, as an exact rational:
optional whitespace and sign, digits with an optional fractional part
(at least one digit overall), and an optional `e`/`E` exponent.
Abstractions: the non-finite literals `inf`/`infinity`/`nan`, underscore
digit separators, and overflow to infinity are not modelled (no claim
touches them), and the result is the exact decimal value rather than its
binary-float64 rounding (the code never computes with the value). -/
def pyFloat (s : String) : Option ℚ :=
  let l := stripSpaces s.data
  let sl := parseSignChars l
  let ipr := parseDigitsAux sl.2 0 0
  let fpr :=
    match ipr.2.2 with
    | '.' :: rest => parseDigitsAux rest 0 0
    | other => (0, 0, other)
  if ipr.2.1 = 0 ∧ fpr.2.1 = 0 then none
  else
    let mant : Int := sl.1 * (ipr.1 * 10 ^ fpr.2.1 + fpr.1)
    match fpr.2.2 with
    | [] => some (mkRat mant (10 ^ fpr.2.1))
    | e :: rest =>
      if e = 'e' ∨ e = 'E' then
        let esl := parseSignChars rest
        let epr := parseDigitsAux esl.2 0 0
        if epr.2.1 = 0 ∨ epr.2.2 ≠ [] then none
        else
          if esl.1 ≥ 0 then some (mkRat (mant * 10 ^ epr.1) (10 ^ fpr.2.1))
          else some (mkRat mant (10 ^ fpr.2.1 * 10 ^ epr.1))
      else none

/-- Decimal digits of `num / den` after the point (`0 ≤ num < den`),
with explicit fuel. -/
def fracDigitsAux : Nat → Nat → Nat → String
  | 0, _, _ => ""
  | fuel + 1, num, den =>
    if num = 0 then ""
    else toString (num * 10 / den) ++ fracDigitsAux fuel (num * 10 % den) den

/-- Python `str(float)` / `f"{value}"` on the exact-rational model:
`"5.0"` style for whole values, otherwise sign, integer part, and the
finite decimal expansion of the fraction.  For the decimal values produced
by `pyFloat` the expansion is finite and equals Python's shortest
round-trip repr on the concrete inputs used below; the fuel bounds the
digit count. -/
def formatFloat (q : ℚ) : String :=
  if q.den = 1 then toString q.num ++ ".0"
  else
    let sgn := if q.num < 0 then "-" else ""
    let n := q.num.natAbs
    sgn ++ toString (n / q.den) ++ "." ++ fracDigitsAux q.den (n % q.den) q.den

/-! ## `build/main.py` — the Prometheus exporter -/

namespace BuildMain

/-- Verdict of the homie topic decode inlined in `on_message`
(lines 112–122 of `build/main.py`). -/
inductive Decoded
  | ignoredNotHomie
  | ignoredMetadata
  | identity (device node prop : String)
deriving DecidableEq

/-- Topic decode of `build/main.py` `on_message` lines 112–122:
`topic_parts = topic.split("/")`; return if `len(topic_parts) != 4 or
topic_parts[0] != "homie"`; return if node or property starts with `$`;
otherwise the `(device, node, prop)` identity. -/
def decode (topic : String) : Decoded :=
  let topic_parts := pySplit '/' topic
  if topic_parts.length ≠ 4 ∨ topic_parts.head? ≠ some ("homie") then
    .ignoredNotHomie
  else
    match topic_parts with
    | [_, device, node, prop] =>
      if startsDollar node || startsDollar prop then .ignoredMetadata
      else .identity device node prop
    | _ => .ignoredNotHomie

/-- Modelled from the spec (§4.1 TopicDecoder, for refinement comparison
only): rule 1, split on `/`, segment count ≠ 4 or `segments[0] != "homie"`
→ `Ignored(NotHomieTopic)`; rule 2, `segments[2]` or `segments[3]` starts
with `$` → `Ignored(MetadataTopic)`; rule 3, otherwise
`Identity{segments[1], segments[2], segments[3]}`. -/
def decodeSpec (topic : String) : Decoded :=
  let segments := pySplit '/' topic
  if segments.length ≠ 4 ∨ segments.get? 0 ≠ some ("homie") then
    .ignoredNotHomie
  else if startsDollar ((segments.get? 2).getD "") ||
      startsDollar ((segments.get? 3).getD "") then
    .ignoredMetadata
  else
    .identity ((segments.get? 1).getD "") ((segments.get? 2).getD "")
      ((segments.get? 3).getD "")

/-- Keys of the static `METRICS` table (`build/main.py` lines 50–58);
`energy` is the `CounterWithSet`, the rest are `Gauge`s — all are written
through the same `.labels(...).set(value)` call. -/
def METRICS : List String :=
  ["temperature", "humidity", "light", "energy5", "energyhour",
   "totalenergy", "energy"]

/-- State of the exporter process: the label-indexed last-value store of
all `METRICS` (prop → device → node → value) and the three operational
counters.  `main.py` has no `skipped` counter. -/
structure ExpState where
  metrics : String → String → String → Option ℚ
  received : Nat
  processed : Nat
  errors : Nat

/-- `METRICS[prop].labels(device=..., node=...).set(value)`: replace the
value stored for one label pair. -/
def setMetric (m : String → String → String → Option ℚ)
    (prop device node : String) (value : ℚ) :
    String → String → String → Option ℚ :=
  fun p d n => if p = prop ∧ d = device ∧ n = node then some value else m p d n

/-- `build/main.py` `on_message` (lines 96–140): count `received`; drop
retained messages; drop non-homie and `$`-metadata topics; for a known
metric key parse the payload — success stores the value and counts
`processed`, a `ValueError` counts `errors`; an unknown property key does
nothing further.  The enclosing `except` (line 138) is unreachable in this
deterministic model. -/
def on_message (topic payload : String) (retain : Bool) (st : ExpState) :
    ExpState :=
  let st := { st with received := st.received + 1 }
  if retain then st
  else
    match decode topic with
    | .ignoredNotHomie => st
    | .ignoredMetadata => st
    | .identity device node prop =>
      if METRICS.contains prop then
        match pyFloat payload with
        | some value =>
          { st with metrics := setMetric st.metrics prop device node value,
                    processed := st.processed + 1 }
        | none => { st with errors := st.errors + 1 }
      else st

/-- The label-children value store of the `energy` `CounterWithSet`
(`build/main.py` lines 40–47): `(device, node) → value`. -/
structure CounterWithSet where
  values : String → String → Option ℚ

/-- `CounterWithSet.set` (lines 43–46): `self._value.set(float(value))` —
the stored value is replaced unconditionally, with no monotonicity check
(`_raise_if_not_observable` only rejects label misuse, which the
`.labels(...)` access rules out). -/
def CounterWithSet.set (c : CounterWithSet) (device node : String)
    (value : ℚ) : CounterWithSet :=
  { values := fun d n =>
      if d = device ∧ n = node then some value else c.values d n }

/-- Connection-supervisor abstract states (spec §4.5), driven by the
callbacks and the retry loop of `build/main.py`. -/
inductive ConnState
  | disconnected
  | connecting
  | connected
  | faulted
deriving DecidableEq

/-- Supervisor state: the abstract connection state plus the value of the
`mqtt_connection_status` gauge (line 64, initial value 0). -/
structure SupState where
  conn : ConnState
  gauge : Nat
deriving DecidableEq

/-- Process start: disconnected, gauge at its Prometheus default 0. -/
def supInit : SupState := { conn := ConnState.disconnected, gauge := 0 }

/-- Events of the supervisor: the `main` retry loop starting a connect
attempt, the `on_connect` callback with rc = 0 or rc ≠ 0, the
`on_disconnect` callback, and an exception escaping the connect/receive
loop. -/
inductive SupEvent
  | startConnect
  | connackOk
  | connackFail
  | disconnectCb
  | connException

/-- Labelled transitions.  `startConnect` (main loop lines 175–184)
touches no gauge; `connackOk` (lines 78–84) sets the gauge to 1 and
resubscribes; `connackFail` (lines 85–87), `disconnectCb` (lines 90–93)
and `connException` (lines 189–195) set it to 0. -/
inductive SupStep : SupState → SupEvent → SupState → Prop
  | startConnect (s : SupState)
      (h : s.conn = ConnState.disconnected ∨ s.conn = ConnState.faulted) :
      SupStep s SupEvent.startConnect { s with conn := ConnState.connecting }
  | connackOk (s : SupState) (h : s.conn = ConnState.connecting) :
      SupStep s SupEvent.connackOk { conn := ConnState.connected, gauge := 1 }
  | connackFail (s : SupState) (h : s.conn = ConnState.connecting) :
      SupStep s SupEvent.connackFail { conn := ConnState.faulted, gauge := 0 }
  | disconnectCb (s : SupState) (h : s.conn = ConnState.connected) :
      SupStep s SupEvent.disconnectCb
        { conn := ConnState.disconnected, gauge := 0 }
  | connException (s : SupState)
      (h : s.conn = ConnState.connecting ∨ s.conn = ConnState.connected) :
      SupStep s SupEvent.connException { conn := ConnState.faulted, gauge := 0 }

/-- States reachable from process start. -/
inductive SupReachable : SupState → Prop
  | init : SupReachable supInit
  | step {s : SupState} {e : SupEvent} {s' : SupState} :
      SupReachable s → SupStep s e s' → SupReachable s'

end BuildMain

/-! ## `mqtt_reader.py` — the CSV datalogger -/

namespace MqttReader

/-- The global `stats` dict (lines 24–28). -/
structure Stats where
  received : Nat
  skipped : Nat
  written : Nat
deriving DecidableEq

/-- The command-line arguments the message callback reads. -/
structure Args where
  outdir : String
  project : String
  tablename : String

/-- The local filesystem as a map from path to file content. -/
def FS : Type := String → Option String

/-- `os.path.isfile(p)`. -/
def isfile (fs : FS) (p : String) : Bool := (fs p).isSome

/-- `open(p, "wt").write(c)`: create/truncate with content `c`. -/
def writeNew (fs : FS) (p c : String) : FS :=
  fun q => if q = p then some c else fs q

/-- `open(p, "at").write(c)`: append `c` (creating an empty file first if
none exists). -/
def appendFile (fs : FS) (p c : String) : FS :=
  fun q => if q = p then some ((fs q).getD "" ++ c) else fs q

/-- Mutable state the callback touches: counters and files. -/
structure St where
  stats : Stats
  fs : FS

/-- `os.path.join(args.outdir, args.project, f"{args.tablename}_{datestring}.csv")`
(line 67), for relative components. -/
def filenameOf (args : Args) (datestring : String) : String :=
  args.outdir ++ "/" ++ args.project ++ "/" ++ args.tablename ++ "_" ++
    datestring ++ ".csv"

/-- `csv_line = f"{int(time.time())};{device};{node};{prop};{value}"`
(line 68): fixed field order, hard-coded `;` separator. -/
def csvLineOf (now : Nat) (device node prop : String) (value : ℚ) : String :=
  toString now ++ ";" ++ device ++ ";" ++ node ++ ";" ++ prop ++ ";" ++
    formatFloat value

/-- `"\t".join(headers)` (line 72): the header line content, hard-coded
tab separator. -/
def headerOf (headers : List String) : String := strJoin "\t" headers

/-- `mqtt_reader.py` `on_message` (lines 50–80).  Everything runs inside
one `try`: `received` is counted first; a retained message counts
`skipped`; otherwise the topic is tuple-unpacked from `split("/")` (a
segment count ≠ 4 raises `ValueError`) and the payload parsed with
`float` (raises on failure) — any exception lands in the `except` that
counts `skipped`.  On success the daily CSV file gets a tab-joined header
iff it does not exist yet, the data line is appended, and `written` is
counted.  `now` models `time.time()` (both calls in one invocation yield
the same clock reading here) and `datestring` models
`datetime.date.fromtimestamp(ts).isoformat()`, which depends on the host
timezone and is therefore an input of the model. -/
def on_message (args : Args) (headers : List String) (now : Nat)
    (datestring : String) (topic payload : String) (retain : Bool)
    (st : St) : St :=
  let stats := { st.stats with received := st.stats.received + 1 }
  let skipSt : St := { st with stats := { stats with skipped := stats.skipped + 1 } }
  if !retain then
    match pySplit '/' topic with
    | [_, device, node, prop] =>
      match pyFloat payload with
      | some value =>
        let filename := filenameOf args datestring
        let csv_line := csvLineOf now device node prop value
        let fs1 :=
          if !isfile st.fs filename then
            writeNew st.fs filename (headerOf headers ++ "\n")
          else st.fs
        let fs2 := appendFile fs1 filename (csv_line ++ "\n")
        { stats := { stats with written := stats.written + 1 }, fs := fs2 }
      | none => skipSt
    | _ => skipSt
  else skipSt

/-- One column of the table definition: `{coltype, colpos}` (§6 schema
resource layout). -/
structure ColDef where
  coltype : String
  colpos : Nat
deriving DecidableEq

/-- The YAML table definition: `{description: {name: {coltype, colpos}},
delimiter}`, the dict as an association list. -/
structure Definition where
  description : List (String × ColDef)
  delimiter : String
deriving DecidableEq

/-- `headers = sorted(definition["description"], key=lambda a: ...["colpos"])`
(line 130): the column names ordered by position.  Computed once at
startup, never recomputed by `read_config`. -/
def headersOf (d : Definition) : List String :=
  (sortBy (fun p => p.2.colpos) d.description).map fun p => p.1

/-- Outcome of one `read_config` tick: the value of the global
`definition` afterwards, whether the call raised, and whether the
self-rescheduling `threading.Timer` on line 99 was started. -/
structure TickResult where
  definition : Option Definition
  raised : Bool
  rescheduled : Bool
deriving DecidableEq

/-- `read_config` (lines 82–99) with the outcome of reading+parsing the
schema resource as input (`none` models `open`/`yaml.safe_load` raising).
There is no `try` in the body: a parse failure propagates before the
assignment on line 93 and before the `threading.Timer(...).start()` on
line 99, so the global keeps its old value and no further tick is
scheduled.  On success the global is (re)assigned unless the parsed value
equals the current one. -/
def read_config (current : Option Definition) (parsed : Option Definition) :
    TickResult :=
  match parsed with
  | none => { definition := current, raised := true, rescheduled := false }
  | some newDef =>
    match current with
    | some old =>
      if old = newDef then
        { definition := some old, raised := false, rescheduled := true }
      else
        { definition := some newDef, raised := false, rescheduled := true }
    | none =>
      { definition := some newDef, raised := false, rescheduled := true }

/-- Modelled from the spec (§4.4/§6 CSV data-line layout, for comparison
only): fields ordered per the schema's column order, the observation's
timestamp for the `ts`-typed column and identity/value for the remaining
columns, joined by the schema's delimiter. -/
def specDataLine (defn : Definition) (now : Nat)
    (device node prop : String) (value : ℚ) : String :=
  strJoin defn.delimiter
    ((sortBy (fun q => q.2.colpos) defn.description).map fun col =>
      if col.2.coltype = "ts" then toString now
      else if col.1 = "device" then device
      else if col.1 = "node" then node
      else if col.1 = "property" then prop
      else formatFloat value)

/-- Modelled from the spec (§4.4/§6 header layout, for comparison only):
the header is the schema columns ordered by position joined by the
schema's delimiter. -/
def specHeaderLine (defn : Definition) : String :=
  strJoin defn.delimiter (headersOf defn)

end MqttReader

/-! ## Concrete fixtures used by closed theorems -/

/-- Fresh CSV-writer state: zero counters, empty filesystem. -/
def rst0 : MqttReader.St := { stats := ⟨0, 0, 0⟩, fs := fun _ => none }

/-- Concrete CLI arguments for the CSV writer. -/
def args0 : MqttReader.Args :=
  { outdir := "hot", project := "proj", tablename := "tbl" }

/-- Fresh exporter state: no metric children, zero counters. -/
def expInit : BuildMain.ExpState :=
  { metrics := fun _ _ _ => none, received := 0, processed := 0, errors := 0 }

/-- A concrete table definition whose delimiter is `;`. -/
def defnSemi : MqttReader.Definition :=
  { description :=
      [("ts", ⟨"ts", 0⟩), ("device", ⟨"str", 1⟩), ("node", ⟨"str", 2⟩),
       ("property", ⟨"str", 3⟩), ("value", ⟨"float", 4⟩)],
    delimiter := ";" }

/-- The same table definition with a tab delimiter. -/
def defnTab : MqttReader.Definition :=
  { description :=
      [("ts", ⟨"ts", 0⟩), ("device", ⟨"str", 1⟩), ("node", ⟨"str", 2⟩),
       ("property", ⟨"str", 3⟩), ("value", ⟨"float", 4⟩)],
    delimiter := "\t" }

/-! ## Helper lemmas -/

/-- Joining the pieces of a split with the separator restores the input. -/
theorem joinCh_splitChAux (sep : Char) (l : List Char) :
    joinCh sep (splitChAux sep l) = l := by
  induction l with
  | nil => rfl
  | cons c rest ih =>
    simp only [splitChAux]
    cases h : splitChAux sep rest with
    | nil =>
      exfalso
      cases rest with
      | nil => simp [splitChAux] at h
      | cons d ds =>
        simp only [splitChAux] at h
        cases h2 : splitChAux sep ds with
        | nil => rw [h2] at h; simp at h
        | cons s tail => rw [h2] at h; by_cases hd : d = sep <;> simp [hd] at h
    | cons s tail =>
      rw [h] at ih
      by_cases hc : c = sep
      · subst hc
        simp only [if_pos rfl]
        cases tail with
        | nil => simp [joinCh] at ih ⊢; exact ih
        | cons t ts => simp [joinCh] at ih ⊢; exact ih
      · simp only [if_neg hc]
        cases tail with
        | nil => simp [joinCh] at ih ⊢; exact ih
        | cons t ts => simp [joinCh] at ih ⊢; exact ih

/-- String-level split/join round trip. -/
theorem pyJoin_pySplit (sep : Char) (s : String) :
    pyJoin sep (pySplit sep s) = s := by
  apply String.ext
  show joinCh sep
      (((splitChAux sep s.data).map fun l => String.mk l).map String.data) =
    s.data
  rw [List.map_map]
  have h : (String.data ∘ fun l : List Char => String.mk l) = id := rfl
  rw [h, List.map_id]
  exact joinCh_splitChAux sep s.data

/-- Joining four segments with `/`. -/
theorem pyJoin_four (a b c d : String) :
    pyJoin '/' [a, b, c, d] = a ++ "/" ++ b ++ "/" ++ c ++ "/" ++ d := by
  apply String.ext
  simp [pyJoin, joinCh, String.data_append]

/-- The exporter's inlined topic decode refines the spec's three-rule
decoder. -/
theorem decode_eq_decodeSpec (t : String) :
    BuildMain.decode t = BuildMain.decodeSpec t := by
  unfold BuildMain.decode BuildMain.decodeSpec
  generalize pySplit '/' t = l
  rcases l with _ | ⟨a, _ | ⟨b, _ | ⟨c, _ | ⟨d, _ | ⟨e, l⟩⟩⟩⟩⟩ <;> simp

/-- Inversion: an `identity` verdict pins down the split of the topic. -/
theorem decode_identity_inv {t d n p : String}
    (h : BuildMain.decode t = BuildMain.Decoded.identity d n p) :
    pySplit '/' t = ["homie", d, n, p] ∧
      startsDollar n = false ∧ startsDollar p = false := by
  unfold BuildMain.decode at h
  revert h
  generalize hl : pySplit '/' t = l
  rcases l with _ | ⟨a, _ | ⟨b, _ | ⟨c, _ | ⟨e, _ | ⟨f, l⟩⟩⟩⟩⟩ <;> intro h <;>
    simp at h
  by_cases ha : a = "homie"
  · subst ha
    simp at h
    by_cases hb : startsDollar c
    · simp [hb] at h
    · by_cases hc : startsDollar e
      · simp [hb, hc] at h
      · simp [hb, hc] at h
        obtain ⟨h1, h2, h3⟩ := h
        subst h1; subst h2; subst h3
        exact ⟨rfl, by simpa using hb, by simpa using hc⟩
  · simp [ha] at h

/-- Evaluation: a well-formed homie split yields `identity`. -/
theorem decode_of_parts {t a d n p : String}
    (ht : pySplit '/' t = [a, d, n, p]) (ha : a = "homie")
    (hn : startsDollar n = false) (hp : startsDollar p = false) :
    BuildMain.decode t = BuildMain.Decoded.identity d n p := by
  unfold BuildMain.decode
  rw [ht, ha]
  simp [hn, hp]

/-- One successful CSV append: the target file's new content and the
counter changes. -/
theorem reader_append_content (args : MqttReader.Args) (headers : List String)
    (now : Nat) (ds t payload : String) (rst : MqttReader.St)
    (a d n p : String) (v : ℚ)
    (ht : pySplit '/' t = [a, d, n, p]) (hf : pyFloat payload = some v) :
    (MqttReader.on_message args headers now ds t payload false rst).fs
        (MqttReader.filenameOf args ds) =
      some ((match rst.fs (MqttReader.filenameOf args ds) with
             | none => MqttReader.headerOf headers ++ "\n"
             | some c => c) ++ (MqttReader.csvLineOf now d n p v ++ "\n")) ∧
    (MqttReader.on_message args headers now ds t payload false rst).stats =
      { rst.stats with
        received := rst.stats.received + 1,
        written := rst.stats.written + 1 } := by
  unfold MqttReader.on_message
  rw [ht]
  simp only [hf]
  cases hc : rst.fs (MqttReader.filenameOf args ds) with
  | none =>
    simp [MqttReader.isfile, MqttReader.appendFile, MqttReader.writeNew, hc]
  | some c =>
    simp [MqttReader.isfile, MqttReader.appendFile, hc]

/-- Every non-writing path of the CSV callback ends in the skip record:
retained flag, a segment count ≠ 4 (the `ValueError` from tuple
unpacking), or a payload `float()` failure — all caught by the enclosing
`except`. -/
theorem reader_skip_eq (args : MqttReader.Args) (headers : List String)
    (now : Nat) (ds t payload : String) (retain : Bool) (rst : MqttReader.St)
    (h : retain = true ∨ (∀ a d n p, pySplit '/' t ≠ [a, d, n, p]) ∨
      pyFloat payload = none) :
    MqttReader.on_message args headers now ds t payload retain rst =
      { rst with stats := { rst.stats with
          received := rst.stats.received + 1,
          skipped := rst.stats.skipped + 1 } } := by
  cases retain with
  | true => rfl
  | false =>
    rcases h with h | h | h
    · cases h
    · unfold MqttReader.on_message
      rcases hsp : pySplit '/' t with _ | ⟨x1, _ | ⟨x2, _ | ⟨x3, _ | ⟨x4, _ | ⟨x5, rest⟩⟩⟩⟩⟩
      · rfl
      · rfl
      · rfl
      · rfl
      · exact absurd hsp (h x1 x2 x3 x4)
      · rfl
    · unfold MqttReader.on_message
      rcases hsp : pySplit '/' t with _ | ⟨x1, _ | ⟨x2, _ | ⟨x3, _ | ⟨x4, _ | ⟨x5, rest⟩⟩⟩⟩⟩
      · rfl
      · rfl
      · rfl
      · rfl
      · rw [h]; rfl
      · rfl

/-! ## Claim theorems -/

/-- C1 (counterexample): the claim's universal decoder contract fails at
the CSV writer's call site.  The concrete non-homie 4-segment topic
`foo/a/b/c` — `Ignored(NotHomieTopic)` under the spec's rule 1 — is not
ignored by `mqtt_reader.py` `on_message`: with a numeric payload it is
fully processed and appended to the CSV file (the callback checks neither
`segments[0] == "homie"` nor the `$` metadata rule). -/
theorem reader_processes_non_homie_topic :
    BuildMain.decodeSpec ("foo/a/b/c") = BuildMain.Decoded.ignoredNotHomie ∧
    (MqttReader.on_message args0 ["ts", "device", "node", "property", "value"] 5
        ("2024-01-01") ("foo/a/b/c") ("7") false rst0).stats.written = 1 ∧
    (MqttReader.on_message args0 ["ts", "device", "node", "property", "value"] 5
        ("2024-01-01") ("foo/a/b/c") ("7") false rst0).fs
        (MqttReader.filenameOf args0 ("2024-01-01")) =
      some ("ts\tdevice\tnode\tproperty\tvalue" ++ "\n" ++ ("5;a;b;c;7.0" ++ "\n")) := by
  exact ⟨by decide, by decide, by decide⟩

/-- C1 (amended): the exporter's topic decoder (`build/main.py`) conforms
to the spec's three ordered rules on every string input — it equals the
rule-by-rule spec decoder `decodeSpec`, it is total by construction, and
every `Identity` verdict exactly reconstructs the input as
`homie/<device>/<node>/<property>` with non-`$` node and property. -/
theorem decode_conforms_three_rules (t : String) :
    BuildMain.decode t = BuildMain.decodeSpec t ∧
    ∀ d n p : String, BuildMain.decode t = BuildMain.Decoded.identity d n p →
      t = "homie" ++ "/" ++ d ++ "/" ++ n ++ "/" ++ p ∧
      startsDollar n = false ∧ startsDollar p = false := by
  refine ⟨decode_eq_decodeSpec t, fun d n p h => ?_⟩
  obtain ⟨hs, hn, hp⟩ := decode_identity_inv h
  refine ⟨?_, hn, hp⟩
  conv_lhs => rw [← pyJoin_pySplit '/' t, hs]
  exact pyJoin_four _ _ _ _

/-- C1 (witness): the amended theorem evaluated at the concrete topic
`homie/e166bf00/ky018/light`. -/
theorem decode_conforms_three_rules_witness :
    BuildMain.decode ("homie/e166bf00/ky018/light") =
      BuildMain.decodeSpec ("homie/e166bf00/ky018/light") ∧
    "homie/e166bf00/ky018/light" =
      "homie" ++ "/" ++ "e166bf00" ++ "/" ++ "ky018" ++ "/" ++ "light" ∧
    startsDollar ("ky018") = false ∧ startsDollar ("light") = false := by
  obtain ⟨h1, h2⟩ := decode_conforms_three_rules ("homie/e166bf00/ky018/light")
  exact ⟨h1, h2 _ _ _ (by decide)⟩

/-- C2: a retained message, for any topic and payload, only increments
`received` and `skipped` in the CSV writer (counters only, filesystem
untouched) and only increments `received` in the exporter (no metric
label set, no `processed`/`errors` change; `main.py` itself has no
`skipped` counter, so the skip is silent there). -/
theorem retained_message_skipped_no_sink_mutation (args : MqttReader.Args)
    (headers : List String) (now : Nat) (ds t payload : String)
    (rst : MqttReader.St) (st : BuildMain.ExpState) :
    MqttReader.on_message args headers now ds t payload true rst =
      { rst with stats := { rst.stats with
          received := rst.stats.received + 1,
          skipped := rst.stats.skipped + 1 } } ∧
    BuildMain.on_message t payload true st =
      { st with received := st.received + 1 } := by
  constructor
  · rfl
  · rfl

/-- C3 (counterexample): a non-retained message on the valid homie topic
`homie/dev/node/brightness` with the unparsable payload `abc` does not
increment `errors` — `build/main.py` tests `prop in METRICS` before
parsing the payload, so for an unknown property the `float` call (and its
`except ValueError` counting) is never reached, contradicting the claim's
"for every ... valid 4-segment homie topic". -/
theorem unknown_property_bad_payload_uncounted :
    BuildMain.decodeSpec ("homie/dev/node/brightness") =
      BuildMain.Decoded.identity ("dev") ("node") ("brightness") ∧
    BuildMain.METRICS.contains ("brightness") = false ∧
    pyFloat ("abc") = none ∧
    (BuildMain.on_message ("homie/dev/node/brightness") ("abc") false expInit).errors
      = 0 := by
  exact ⟨by decide, by decide, by decide, by decide⟩

/-- C3 (amended): for a non-retained message on a valid homie topic whose
property IS a key of the static metrics table and whose payload does not
parse as a float, the exporter increments `errors` by exactly 1, mutates
no metric and no other counter besides `received`, and returns normally;
the CSV writer counts the same parse failure as `skipped` (it has no
`errors` counter) and also continues. -/
theorem value_parse_failure_counted_nonfatal
    (st : BuildMain.ExpState) (t d n p payload : String)
    (args : MqttReader.Args) (headers : List String) (now : Nat) (ds : String)
    (rst : MqttReader.St)
    (ht : pySplit '/' t = ["homie", d, n, p])
    (hn : startsDollar n = false) (hp : startsDollar p = false)
    (hm : BuildMain.METRICS.contains p = true)
    (hf : pyFloat payload = none) :
    BuildMain.on_message t payload false st =
      { st with received := st.received + 1, errors := st.errors + 1 } ∧
    MqttReader.on_message args headers now ds t payload false rst =
      { rst with stats := { rst.stats with
          received := rst.stats.received + 1,
          skipped := rst.stats.skipped + 1 } } := by
  have hm2 : p ∈ BuildMain.METRICS := by simpa using hm
  constructor
  · unfold BuildMain.on_message
    rw [decode_of_parts ht rfl hn hp]
    simp [hm2, hf]
  · unfold MqttReader.on_message
    rw [ht]
    simp [hf]

/-- C3 (witness): the amended theorem at the spec's concrete scenario,
topic `homie/e166bf00/ky018/light` and payload `abc`. -/
theorem value_parse_failure_counted_nonfatal_witness :
    BuildMain.METRICS.contains ("light") = true ∧
    pyFloat ("abc") = none ∧
    BuildMain.on_message ("homie/e166bf00/ky018/light") ("abc") false expInit =
      { expInit with
          received := expInit.received + 1,
          errors := expInit.errors + 1 } ∧
    MqttReader.on_message args0 [] 5 ("2024-01-01")
        ("homie/e166bf00/ky018/light") ("abc") false rst0 =
      { rst0 with stats := { rst0.stats with
          received := rst0.stats.received + 1,
          skipped := rst0.stats.skipped + 1 } } := by
  have h := value_parse_failure_counted_nonfatal expInit
    ("homie/e166bf00/ky018/light") ("e166bf00") ("ky018") ("light") ("abc")
    args0 [] 5 ("2024-01-01") rst0 (by decide) (by decide) (by decide)
    (by decide) (by decide)
  exact ⟨by decide, by decide, h.1, h.2⟩

/-- C4 (counterexample): the CSV header is NOT joined by the schema's
delimiter.  For a schema whose delimiter is `;`, the header line the code
writes for a fresh file is the tab-join of the column names (line 72
hard-codes `"\t".join(headers)`; the `delimiter` read on line 128 is
never used), which differs from the `;`-joined header the claim
prescribes. -/
theorem csv_header_not_schema_delimiter :
    defnSemi.delimiter = ";" ∧
    (MqttReader.on_message args0 (MqttReader.headersOf defnSemi) 5
        ("2024-01-01") ("homie/a/b/c") ("7") false rst0).fs
        (MqttReader.filenameOf args0 ("2024-01-01")) =
      some (MqttReader.headerOf (MqttReader.headersOf defnSemi) ++ "\n" ++
        ("5;a;b;c;7.0" ++ "\n")) ∧
    MqttReader.headerOf (MqttReader.headersOf defnSemi) ≠
      MqttReader.specHeaderLine defnSemi := by
  exact ⟨by decide, by decide, by decide⟩

/-- C4 (amended): the header IS written exactly once per file: appending
two observations to a not-yet-existing target produces exactly one header
line — the schema's column names ordered by `colpos`, but joined by a tab
character regardless of the schema's delimiter — followed by the two data
lines in order, each terminated by one newline. -/
theorem csv_header_written_once_tab_joined
    (args : MqttReader.Args) (defn : MqttReader.Definition)
    (now1 now2 : Nat) (ds t1 pl1 t2 pl2 : String) (rst : MqttReader.St)
    (a1 d1 n1 p1 a2 d2 n2 p2 : String) (v1 v2 : ℚ)
    (ht1 : pySplit '/' t1 = [a1, d1, n1, p1]) (hf1 : pyFloat pl1 = some v1)
    (ht2 : pySplit '/' t2 = [a2, d2, n2, p2]) (hf2 : pyFloat pl2 = some v2)
    (hnew : rst.fs (MqttReader.filenameOf args ds) = none) :
    (MqttReader.on_message args (MqttReader.headersOf defn) now2 ds t2 pl2 false
        (MqttReader.on_message args (MqttReader.headersOf defn) now1 ds t1 pl1
          false rst)).fs (MqttReader.filenameOf args ds) =
      some ((MqttReader.headerOf (MqttReader.headersOf defn) ++ "\n" ++
          (MqttReader.csvLineOf now1 d1 n1 p1 v1 ++ "\n")) ++
        (MqttReader.csvLineOf now2 d2 n2 p2 v2 ++ "\n")) := by
  have h1 := reader_append_content args (MqttReader.headersOf defn) now1 ds t1
    pl1 rst a1 d1 n1 p1 v1 ht1 hf1
  rw [hnew] at h1
  have h2 := reader_append_content args (MqttReader.headersOf defn) now2 ds t2
    pl2 (MqttReader.on_message args (MqttReader.headersOf defn) now1 ds t1 pl1
      false rst) a2 d2 n2 p2 v2 ht2 hf2
  rw [h1.1] at h2
  exact h2.1

/-- C4 (witness): two concrete appends to a fresh file. -/
theorem csv_header_written_once_tab_joined_witness :
    pySplit '/' "homie/a/b/c" = ["homie", "a", "b", "c"] ∧
    pyFloat ("7") = some 7 ∧
    rst0.fs (MqttReader.filenameOf args0 ("2024-01-01")) = none ∧
    (MqttReader.on_message args0 (MqttReader.headersOf defnSemi) 6
        ("2024-01-01") ("homie/a/b/c") ("8") false
        (MqttReader.on_message args0 (MqttReader.headersOf defnSemi) 5
          ("2024-01-01") ("homie/a/b/c") ("7") false rst0)).fs
        (MqttReader.filenameOf args0 ("2024-01-01")) =
      some ((MqttReader.headerOf (MqttReader.headersOf defnSemi) ++ "\n" ++
          (MqttReader.csvLineOf 5 ("a") ("b") ("c") 7 ++ "\n")) ++
        (MqttReader.csvLineOf 6 ("a") ("b") ("c") 8 ++ "\n")) :=
  ⟨by decide, by decide, by decide,
    csv_header_written_once_tab_joined args0 defnSemi 5 6 ("2024-01-01")
      ("homie/a/b/c") ("7") ("homie/a/b/c") ("8") rst0 ("homie") ("a") ("b")
      ("c") ("homie") ("a") ("b") ("c") 7 8 (by decide) (by decide) (by decide)
      (by decide) (by decide)⟩

/-- C5 (counterexample): the data line is NOT ordered/joined per the
schema.  For a schema whose delimiter is a tab, the line the code appends
is still `ts;device;node;property;value` with hard-coded `;` (line 68),
differing from the schema-driven line the claim prescribes. -/
theorem csv_data_line_ignores_schema :
    defnTab.delimiter = "\t" ∧
    (MqttReader.on_message args0 (MqttReader.headersOf defnTab) 5
        ("2024-01-01") ("homie/a/b/c") ("7") false rst0).fs
        (MqttReader.filenameOf args0 ("2024-01-01")) =
      some (MqttReader.headerOf (MqttReader.headersOf defnTab) ++ "\n" ++
        ("5;a;b;c;7.0" ++ "\n")) ∧
    MqttReader.csvLineOf 5 ("a") ("b") ("c") 7 ≠
      MqttReader.specDataLine defnTab 5 ("a") ("b") ("c") 7 := by
  exact ⟨by decide, by decide, by decide⟩

/-- C5 (amended): every successful append adds exactly one line to the
target file, in the fixed order timestamp, device, node, property, value,
joined by the hard-coded `;` (independent of the schema), terminated by a
single newline — the schema influences neither field order nor
delimiter. -/
theorem csv_data_line_fixed_format
    (args : MqttReader.Args) (headers : List String) (now : Nat)
    (ds t payload : String) (rst : MqttReader.St)
    (a d n p : String) (v : ℚ)
    (ht : pySplit '/' t = [a, d, n, p]) (hf : pyFloat payload = some v) :
    MqttReader.csvLineOf now d n p v =
      strJoin (";") [toString now, d, n, p, formatFloat v] ∧
    (MqttReader.on_message args headers now ds t payload false rst).fs
        (MqttReader.filenameOf args ds) =
      some ((match rst.fs (MqttReader.filenameOf args ds) with
             | none => MqttReader.headerOf headers ++ "\n"
             | some c => c) ++ (MqttReader.csvLineOf now d n p v ++ "\n")) := by
  constructor
  · apply String.ext
    simp [MqttReader.csvLineOf, strJoin, String.data_append]
  · exact (reader_append_content args headers now ds t payload rst a d n p v
      ht hf).1

/-- C5 (witness): the amended theorem at one concrete append. -/
theorem csv_data_line_fixed_format_witness :
    pySplit '/' "homie/a/b/c" = ["homie", "a", "b", "c"] ∧
    pyFloat ("7") = some 7 ∧
    MqttReader.csvLineOf 5 ("a") ("b") ("c") 7 =
      strJoin (";") [toString 5, "a", "b", "c", formatFloat 7] ∧
    (MqttReader.on_message args0 ["h1", "h2"] 5 ("2024-01-01") ("homie/a/b/c")
        ("7") false rst0).fs (MqttReader.filenameOf args0 ("2024-01-01")) =
      some ((match rst0.fs (MqttReader.filenameOf args0 ("2024-01-01")) with
             | none => MqttReader.headerOf ["h1", "h2"] ++ "\n"
             | some c => c) ++
        (MqttReader.csvLineOf 5 ("a") ("b") ("c") 7 ++ "\n")) :=
  ⟨by decide, by decide,
    (csv_data_line_fixed_format args0 ["h1", "h2"] 5 ("2024-01-01")
      ("homie/a/b/c") ("7") rst0 ("homie") ("a") ("b") ("c") 7 (by decide)
      (by decide)).1,
    (csv_data_line_fixed_format args0 ["h1", "h2"] 5 ("2024-01-01")
      ("homie/a/b/c") ("7") rst0 ("homie") ("a") ("b") ("c") 7 (by decide)
      (by decide)).2⟩

/-- C6: `CounterWithSet.set` replaces the stored value with the given
absolute value unconditionally — in particular a value lower than the one
currently stored is accepted (the model's `set` is total, mirroring the
unconditional `self._value.set(float(value))`), and the spec's
device-reset scenario 500.0-then-10.0 reads back 10.0. -/
theorem counter_with_set_replaces_value (c : BuildMain.CounterWithSet)
    (device node : String) (v w : ℚ) :
    ((c.set device node v).set device node w).values device node = some w ∧
    (c.set device node v).values device node = some v ∧
    ((c.set device node 500).set device node 10).values device node
      = some 10 := by
  refine ⟨?_, ?_, ?_⟩ <;> simp [BuildMain.CounterWithSet.set]

/-- C7 (counterexample): a reload whose resource fails to parse is NOT
retried on the next timer tick.  `read_config` has no exception handler:
the parse error propagates (`raised = true`) before the
`threading.Timer(...).start()` on line 99 runs (`rescheduled = false`),
so the periodic-reload chain stops; only the preservation of the previous
definition holds. -/
theorem failed_reload_stops_timer :
    MqttReader.read_config (some defnSemi) none =
      { definition := some defnSemi, raised := true, rescheduled := false } := by
  decide

/-- C7 (amended): a failed reload leaves the previously loaded definition
in effect (the assignment on line 93 is never reached — no partial swap),
and a subsequently written CSV header is unchanged (it is the tab-join of
the `headers` list computed once at startup, which `read_config` never
touches); but the reload raises and the next timer tick is never
scheduled, so it is not retried. -/
theorem failed_reload_preserves_definition
    (cur : Option MqttReader.Definition) (args : MqttReader.Args)
    (headers : List String) (now : Nat) (ds t payload : String)
    (rst : MqttReader.St) (a d n p : String) (v : ℚ)
    (ht : pySplit '/' t = [a, d, n, p]) (hf : pyFloat payload = some v)
    (hnew : rst.fs (MqttReader.filenameOf args ds) = none) :
    (MqttReader.read_config cur none).definition = cur ∧
    (MqttReader.read_config cur none).raised = true ∧
    (MqttReader.read_config cur none).rescheduled = false ∧
    (MqttReader.on_message args headers now ds t payload false rst).fs
        (MqttReader.filenameOf args ds) =
      some (MqttReader.headerOf headers ++ "\n" ++
        (MqttReader.csvLineOf now d n p v ++ "\n")) := by
  refine ⟨rfl, rfl, rfl, ?_⟩
  have h := (reader_append_content args headers now ds t payload rst a d n p v
    ht hf).1
  rw [hnew] at h
  exact h

/-- C7 (witness): the amended theorem at a concrete failed reload and a
concrete post-reload append. -/
theorem failed_reload_preserves_definition_witness :
    pySplit '/' "homie/a/b/c" = ["homie", "a", "b", "c"] ∧
    pyFloat ("7") = some 7 ∧
    rst0.fs (MqttReader.filenameOf args0 ("2024-01-01")) = none ∧
    (MqttReader.read_config (some defnSemi) none).definition = some defnSemi ∧
    (MqttReader.read_config (some defnSemi) none).raised = true ∧
    (MqttReader.read_config (some defnSemi) none).rescheduled = false ∧
    (MqttReader.on_message args0 ["h"] 5 ("2024-01-01") ("homie/a/b/c") ("7")
        false rst0).fs (MqttReader.filenameOf args0 ("2024-01-01")) =
      some (MqttReader.headerOf ["h"] ++ "\n" ++
        (MqttReader.csvLineOf 5 ("a") ("b") ("c") 7 ++ "\n")) :=
  ⟨by decide, by decide, by decide,
    (failed_reload_preserves_definition (some defnSemi) args0 ["h"] 5
      ("2024-01-01") ("homie/a/b/c") ("7") rst0 ("homie") ("a") ("b") ("c") 7
      (by decide) (by decide) (by decide)).1,
    (failed_reload_preserves_definition (some defnSemi) args0 ["h"] 5
      ("2024-01-01") ("homie/a/b/c") ("7") rst0 ("homie") ("a") ("b") ("c") 7
      (by decide) (by decide) (by decide)).2⟩

/-- C8: a non-retained, valid, numeric-payload message whose property is
not a key of the static metrics table leaves the exporter state unchanged
except for `received`: no metric is mutated, `errors` and `processed`
stay put (the occurrence is never added to `errors`), and the handler
returns normally. -/
theorem unknown_metric_no_mutation_no_error (st : BuildMain.ExpState)
    (t d n p payload : String) (v : ℚ)
    (ht : pySplit '/' t = ["homie", d, n, p])
    (hn : startsDollar n = false) (hp : startsDollar p = false)
    (hm : BuildMain.METRICS.contains p = false)
    (hf : pyFloat payload = some v) :
    BuildMain.on_message t payload false st =
      { st with received := st.received + 1 } := by
  have hm2 : p ∉ BuildMain.METRICS := by simpa using hm
  unfold BuildMain.on_message
  rw [decode_of_parts ht rfl hn hp]
  simp [hm2]

/-- C8 (witness): the theorem at the concrete unknown property
`pressure` with numeric payload `1.5`. -/
theorem unknown_metric_no_mutation_no_error_witness :
    BuildMain.METRICS.contains ("pressure") = false ∧
    pyFloat ("1.5") = some (mkRat 15 10) ∧
    BuildMain.on_message ("homie/dev/node/pressure") ("1.5") false expInit =
      { expInit with received := expInit.received + 1 } :=
  ⟨by decide, by decide,
    unknown_metric_no_mutation_no_error expInit ("homie/dev/node/pressure")
      ("dev") ("node") ("pressure") ("1.5") (mkRat 15 10) (by decide)
      (by decide) (by decide) (by decide) (by decide)⟩

/-- C9: in every reachable state of the connection supervisor, the
`mqtt_connection_status` gauge reads 1 exactly when the state is
`connected`: `on_connect` with rc = 0 sets it to 1, while a failed
connect, a disconnect and a connection exception all set it to 0, and a
new connect attempt leaves the (necessarily 0) value in place. -/
theorem connection_gauge_iff_connected (s : BuildMain.SupState)
    (h : BuildMain.SupReachable s) :
    s.gauge = 1 ↔ s.conn = BuildMain.ConnState.connected := by
  induction h with
  | init => simp [BuildMain.supInit]
  | step hr hs ih =>
    cases hs with
    | startConnect hc => rcases hc with h1 | h1 <;> simp_all
    | connackOk hc => simp
    | connackFail hc => simp
    | disconnectCb hc => simp
    | connException hc => simp

/-- C9 (witness): the invariant at the concrete reachable state reached
by start-connect followed by a successful CONNACK. -/
theorem connection_gauge_iff_connected_witness :
    BuildMain.SupReachable
      { conn := BuildMain.ConnState.connected, gauge := 1 } ∧
    ((1 : Nat) = 1 ↔
      BuildMain.ConnState.connected = BuildMain.ConnState.connected) := by
  have hr : BuildMain.SupReachable
      { conn := BuildMain.ConnState.connected, gauge := 1 } :=
    BuildMain.SupReachable.step
      (BuildMain.SupReachable.step BuildMain.SupReachable.init
        (BuildMain.SupStep.startConnect BuildMain.supInit (Or.inl rfl)))
      (BuildMain.SupStep.connackOk _ rfl)
  exact ⟨hr, connection_gauge_iff_connected _ hr⟩

/-- C10: every invocation of the CSV writer's callback increments
`received` by exactly 1 and exactly one of `written`/`skipped` by exactly
1 (retained, malformed-topic and unparsable-payload messages all land in
`skipped` via the enclosing `except`), so `received = written + skipped`
is preserved by every call; the modelled callback is a total function,
never propagating an exception. -/
theorem reader_callback_counter_invariant (args : MqttReader.Args)
    (headers : List String) (now : Nat) (ds t payload : String)
    (retain : Bool) (rst : MqttReader.St) :
    (MqttReader.on_message args headers now ds t payload retain rst).stats.received
        = rst.stats.received + 1 ∧
    (((MqttReader.on_message args headers now ds t payload retain rst).stats.written
          = rst.stats.written + 1 ∧
      (MqttReader.on_message args headers now ds t payload retain rst).stats.skipped
          = rst.stats.skipped) ∨
     ((MqttReader.on_message args headers now ds t payload retain rst).stats.written
          = rst.stats.written ∧
      (MqttReader.on_message args headers now ds t payload retain rst).stats.skipped
          = rst.stats.skipped + 1)) ∧
    (rst.stats.received = rst.stats.written + rst.stats.skipped →
      (MqttReader.on_message args headers now ds t payload retain rst).stats.received
          = (MqttReader.on_message args headers now ds t payload retain rst).stats.written
            + (MqttReader.on_message args headers now ds t payload retain rst).stats.skipped) := by
  rcases hsp : pySplit '/' t with _ | ⟨x1, _ | ⟨x2, _ | ⟨x3, _ | ⟨x4, _ | ⟨x5, rest⟩⟩⟩⟩⟩
  case cons.cons.cons.cons.nil =>
    cases retain with
    | true =>
      rw [reader_skip_eq args headers now ds t payload true rst (Or.inl rfl)]
      exact ⟨rfl, Or.inr ⟨rfl, rfl⟩, fun h => by simp; omega⟩
    | false =>
      cases hpf : pyFloat payload with
      | none =>
        rw [reader_skip_eq args headers now ds t payload false rst
          (Or.inr (Or.inr hpf))]
        exact ⟨rfl, Or.inr ⟨rfl, rfl⟩, fun h => by simp; omega⟩
      | some v =>
        have hw := (reader_append_content args headers now ds t payload rst
          x1 x2 x3 x4 v hsp hpf).2
        rw [hw]
        exact ⟨rfl, Or.inl ⟨rfl, rfl⟩, fun h => by simp; omega⟩
  all_goals
    cases retain with
    | true =>
      rw [reader_skip_eq args headers now ds t payload true rst (Or.inl rfl)]
      exact ⟨rfl, Or.inr ⟨rfl, rfl⟩, fun h => by simp; omega⟩
    | false =>
      rw [reader_skip_eq args headers now ds t payload false rst
        (Or.inr (Or.inl (fun a d n p hh => by rw [hsp] at hh; simp at hh)))]
      exact ⟨rfl, Or.inr ⟨rfl, rfl⟩, fun h => by simp; omega⟩

/-- C10 (witness): the counter invariant at one concrete successful
write starting from zeroed counters. -/
theorem reader_callback_counter_invariant_witness :
    rst0.stats.received = rst0.stats.written + rst0.stats.skipped ∧
    (MqttReader.on_message args0 [] 5 ("2024-01-01") ("homie/a/b/c") ("7")
        false rst0).stats.received =
      (MqttReader.on_message args0 [] 5 ("2024-01-01") ("homie/a/b/c") ("7")
          false rst0).stats.written +
        (MqttReader.on_message args0 [] 5 ("2024-01-01") ("homie/a/b/c") ("7")
            false rst0).stats.skipped :=
  ⟨by decide,
    (reader_callback_counter_invariant args0 [] 5 ("2024-01-01")
      ("homie/a/b/c") ("7") false rst0).2.2 (by decide)⟩
